import Mathlib

/-!
Shallow embedding of `src/decimal.rs` from the `decimals` repository: a
fixed-point decimal type backed by a 192-bit unsigned integer (`U192`),
with checked arithmetic returning `Result<_, DecimalError>`.

`U192` values are modelled as `Nat`s below `2 ^ 192`; the `uint` crate's
checked operations are modelled as `Option Nat` (with `none` for
overflow, underflow, or a zero divisor). Rust `Result` is modelled as
`Except DecimalError`. Native `u64`/`u128` multiplications that the
source performs unchecked are modelled with an explicit `% 2 ^ 64`
reduction (release-build wrapping semantics); the `uint` crate's plain
`*` on `U192`, which panics on overflow, is modelled as `Option` with
`none` standing for the panic.
-/

/-- Modelled from the spec: `SCALE` from `crate::common` (not under `src/`):
18 decimal digits of precision. -/
def SCALE : Nat := 18

/-- Modelled from the spec: `WAD` from `crate::common` (not under `src/`):
the scale factor `10 ^ 18` (spec calls it `ONE_WAD`). -/
def WAD : Nat := 10 ^ 18

/-- Modelled from the spec: `HALF_WAD` from `crate::common` (not under `src/`):
half the scale factor, `5 * 10 ^ 17`. -/
def HALF_WAD : Nat := 5 * 10 ^ 17

/-- Modelled from the spec: `PERCENT_SCALER` from `crate::common` (not under
`src/`): `WAD / 100 = 10 ^ 16`. -/
def PERCENT_SCALER : Nat := 10 ^ 16

/-- Modelled from the spec: `BPS_SCALER` from `crate::common` (not under
`src/`): `WAD / 10000 = 10 ^ 14`. -/
def BPS_SCALER : Nat := 10 ^ 14

namespace U192

/-- The exclusive upper bound of the 192-bit unsigned integer type. -/
def limit : Nat := 2 ^ 192

/-- `U192::checked_add`: `none` when the sum exceeds 192 bits. -/
def checked_add (a b : Nat) : Option Nat :=
  if a + b < limit then some (a + b) else none

/-- `U192::checked_sub`: `none` when the subtrahend exceeds the minuend. -/
def checked_sub (a b : Nat) : Option Nat :=
  if b ≤ a then some (a - b) else none

/-- `U192::checked_mul`: `none` when the product exceeds 192 bits. -/
def checked_mul (a b : Nat) : Option Nat :=
  if a * b < limit then some (a * b) else none

/-- `U192::checked_div`: `none` exactly on a zero divisor. -/
def checked_div (a b : Nat) : Option Nat :=
  if b = 0 then none else some (a / b)

end U192

/-- Modelled from the spec: `DecimalError` from `crate::error` (not under
`src/`): minimal error taxonomy with the single variant `MathOverflow`. -/
inductive DecimalError where
  | MathOverflow
deriving DecidableEq, Repr

/-- Rust's `Option::ok_or(DecimalError::MathOverflow)`. -/
def ok_or {α : Type} (o : Option α) : Except DecimalError α :=
  match o with
  | some a => Except.ok a
  | none => Except.error DecimalError.MathOverflow

/-- `u64::try_from(_).map_err(|_| DecimalError::MathOverflow)`:
narrowing a `U192` value to 64 bits. -/
def u64_try_from (n : Nat) : Except DecimalError Nat :=
  if n < 2 ^ 64 then Except.ok n else Except.error DecimalError.MathOverflow

/-- `u128::try_from(_).map_err(|_| DecimalError::MathOverflow)`:
narrowing a `U192` value to 128 bits. -/
def u128_try_from (n : Nat) : Except DecimalError Nat :=
  if n < 2 ^ 128 then Except.ok n else Except.error DecimalError.MathOverflow

/-- `pub struct Decimal(pub U192)`: large decimal values, precise to 18
digits, interpreted as `raw / 10 ^ 18`. -/
structure Decimal where
  raw : Nat
deriving DecidableEq, Repr

namespace Decimal

/-- `Decimal::one()`. -/
def one : Decimal := ⟨WAD⟩

/-- `Decimal::zero()`. -/
def zero : Decimal := ⟨0⟩

/-- `Decimal::from_percent(percent: u8)`: `percent as u64 * PERCENT_SCALER`,
an unchecked `u64` multiplication (modelled with wrapping `% 2 ^ 64`). -/
def from_percent (percent : Nat) : Decimal :=
  ⟨percent * PERCENT_SCALER % 2 ^ 64⟩

/-- `Decimal::from_percent_u64(percent: u64)`: `percent * PERCENT_SCALER`,
an unchecked `u64` multiplication (modelled with wrapping `% 2 ^ 64`). -/
def from_percent_u64 (percent : Nat) : Decimal :=
  ⟨percent * PERCENT_SCALER % 2 ^ 64⟩

/-- `Decimal::to_percent()`: `u128::try_from(self.0 / PERCENT_SCALER)`. -/
def to_percent (d : Decimal) : Except DecimalError Nat :=
  u128_try_from (d.raw / PERCENT_SCALER)

/-- `Decimal::to_bps()`: `u128::try_from(self.0 / BPS_SCALER)`. -/
def to_bps (d : Decimal) : Except DecimalError Nat :=
  u128_try_from (d.raw / BPS_SCALER)

/-- `Decimal::from_bps(bps: u16)`: `bps as u64 * BPS_SCALER`,
an unchecked `u64` multiplication (modelled with wrapping `% 2 ^ 64`). -/
def from_bps (bps : Nat) : Decimal :=
  ⟨bps * BPS_SCALER % 2 ^ 64⟩

/-- `Decimal::to_scaled_val()`: raw scaled value if it fits within `u128`. -/
def to_scaled_val (d : Decimal) : Except DecimalError Nat :=
  u128_try_from d.raw

/-- `Decimal::from_scaled_val(scaled_val: u128)`. -/
def from_scaled_val (scaled_val : Nat) : Decimal :=
  ⟨scaled_val⟩

/-- `Decimal::try_round_u64()`:
`half_wad().checked_add(self.0)?.checked_div(wad())?` narrowed to `u64`. -/
def try_round_u64 (d : Decimal) : Except DecimalError Nat :=
  match U192.checked_add HALF_WAD d.raw with
  | none => Except.error DecimalError.MathOverflow
  | some s =>
    match U192.checked_div s WAD with
    | none => Except.error DecimalError.MathOverflow
    | some r => u64_try_from r

/-- `Decimal::try_round_u128()`: same computation narrowed to `u128`. -/
def try_round_u128 (d : Decimal) : Except DecimalError Nat :=
  match U192.checked_add HALF_WAD d.raw with
  | none => Except.error DecimalError.MathOverflow
  | some s =>
    match U192.checked_div s WAD with
    | none => Except.error DecimalError.MathOverflow
    | some r => u128_try_from r

/-- `Decimal::try_ceil_u64()`:
`wad().checked_sub(1)?.checked_add(self.0)?.checked_div(wad())?`
narrowed to `u64`. -/
def try_ceil_u64 (d : Decimal) : Except DecimalError Nat :=
  match U192.checked_sub WAD 1 with
  | none => Except.error DecimalError.MathOverflow
  | some a =>
    match U192.checked_add a d.raw with
    | none => Except.error DecimalError.MathOverflow
    | some b =>
      match U192.checked_div b WAD with
      | none => Except.error DecimalError.MathOverflow
      | some c => u64_try_from c

/-- `Decimal::try_floor_u64()`: `self.0.checked_div(wad())?` narrowed
to `u64`. -/
def try_floor_u64 (d : Decimal) : Except DecimalError Nat :=
  match U192.checked_div d.raw WAD with
  | none => Except.error DecimalError.MathOverflow
  | some c => u64_try_from c

/-- `Decimal::try_floor_u128()`: same computation narrowed to `u128`. -/
def try_floor_u128 (d : Decimal) : Except DecimalError Nat :=
  match U192.checked_div d.raw WAD with
  | none => Except.error DecimalError.MathOverflow
  | some c => u128_try_from c

/-- `impl From<u64> for Decimal`: `wad() * U192::from(val)`. The `uint`
crate's unchecked `*` panics on 192-bit overflow; `none` models the
panic. -/
def fromU64 (val : Nat) : Option Decimal :=
  if WAD * val < U192.limit then some ⟨WAD * val⟩ else none

/-- `impl From<u128> for Decimal`: `wad() * U192::from(val)`. The `uint`
crate's unchecked `*` panics on 192-bit overflow; `none` models the
panic. -/
def fromU128 (val : Nat) : Option Decimal :=
  if WAD * val < U192.limit then some ⟨WAD * val⟩ else none

/-- `impl TryAdd for Decimal`: `self.0.checked_add(rhs.0)`. -/
def try_add (a b : Decimal) : Except DecimalError Decimal :=
  match U192.checked_add a.raw b.raw with
  | none => Except.error DecimalError.MathOverflow
  | some n => Except.ok ⟨n⟩

/-- `impl TrySub for Decimal`: `self.0.checked_sub(rhs.0)`. -/
def try_sub (a b : Decimal) : Except DecimalError Decimal :=
  match U192.checked_sub a.raw b.raw with
  | none => Except.error DecimalError.MathOverflow
  | some n => Except.ok ⟨n⟩

/-- `impl TryDiv<u64> for Decimal`: `self.0.checked_div(U192::from(rhs))`. -/
def try_div_u64 (a : Decimal) (rhs : Nat) : Except DecimalError Decimal :=
  match U192.checked_div a.raw rhs with
  | none => Except.error DecimalError.MathOverflow
  | some n => Except.ok ⟨n⟩

/-- `impl TryDiv<u128> for Decimal`: `self.0.checked_div(U192::from(rhs))`. -/
def try_div_u128 (a : Decimal) (rhs : Nat) : Except DecimalError Decimal :=
  match U192.checked_div a.raw rhs with
  | none => Except.error DecimalError.MathOverflow
  | some n => Except.ok ⟨n⟩

/-- `impl TryDiv<Decimal> for Decimal`:
`self.0.checked_mul(wad())?.checked_div(rhs.0)?`. -/
def try_div (a b : Decimal) : Except DecimalError Decimal :=
  match U192.checked_mul a.raw WAD with
  | none => Except.error DecimalError.MathOverflow
  | some p =>
    match U192.checked_div p b.raw with
    | none => Except.error DecimalError.MathOverflow
    | some q => Except.ok ⟨q⟩

/-- `impl TryMul<u64> for Decimal`: `self.0.checked_mul(U192::from(rhs))`. -/
def try_mul_u64 (a : Decimal) (rhs : Nat) : Except DecimalError Decimal :=
  match U192.checked_mul a.raw rhs with
  | none => Except.error DecimalError.MathOverflow
  | some n => Except.ok ⟨n⟩

/-- `impl TryMul<Decimal> for Decimal`:
`self.0.checked_mul(rhs.0)?.checked_div(wad())?`. -/
def try_mul (a b : Decimal) : Except DecimalError Decimal :=
  match U192.checked_mul a.raw b.raw with
  | none => Except.error DecimalError.MathOverflow
  | some p =>
    match U192.checked_div p WAD with
    | none => Except.error DecimalError.MathOverflow
    | some q => Except.ok ⟨q⟩

end Decimal

/-! Helper lemmas about the checked primitives. -/

/-- Checked addition succeeds below the width limit. -/
theorem U192.checked_add_eq_some {a b : Nat} (h : a + b < U192.limit) :
    U192.checked_add a b = some (a + b) := if_pos h

/-- Checked addition fails at or above the width limit. -/
theorem U192.checked_add_eq_none {a b : Nat} (h : U192.limit ≤ a + b) :
    U192.checked_add a b = none := if_neg (Nat.not_lt.mpr h)

/-- Checked subtraction succeeds when the subtrahend is no larger. -/
theorem U192.checked_sub_eq_some {a b : Nat} (h : b ≤ a) :
    U192.checked_sub a b = some (a - b) := if_pos h

/-- Checked subtraction fails when the subtrahend is larger. -/
theorem U192.checked_sub_eq_none {a b : Nat} (h : a < b) :
    U192.checked_sub a b = none := if_neg (Nat.not_le.mpr h)

/-- Checked multiplication succeeds below the width limit. -/
theorem U192.checked_mul_eq_some {a b : Nat} (h : a * b < U192.limit) :
    U192.checked_mul a b = some (a * b) := if_pos h

/-- Checked multiplication fails at or above the width limit. -/
theorem U192.checked_mul_eq_none {a b : Nat} (h : U192.limit ≤ a * b) :
    U192.checked_mul a b = none := if_neg (Nat.not_lt.mpr h)

/-- Checked division succeeds on a nonzero divisor. -/
theorem U192.checked_div_eq_some {a b : Nat} (h : b ≠ 0) :
    U192.checked_div a b = some (a / b) := if_neg h

/-- Checked division fails on a zero divisor. -/
theorem U192.checked_div_zero (a : Nat) : U192.checked_div a 0 = none :=
  if_pos rfl

/-! Claim theorems. -/

/-- Claim C3: for every pair of decimals, `try_sub` succeeds exactly when
the minuend's raw value is at least the subtrahend's, returning the raw
difference, and fails with `MathOverflow` exactly when the true
mathematical result would be negative — the type's only mechanism for
rejecting negative results. -/
theorem C3_try_sub_iff (a b : Decimal) :
    (b.raw ≤ a.raw → a.try_sub b = Except.ok ⟨a.raw - b.raw⟩) ∧
    (a.raw < b.raw → a.try_sub b = Except.error DecimalError.MathOverflow) := by
  constructor
  · intro h
    simp [Decimal.try_sub, U192.checked_sub_eq_some h]
  · intro h
    simp [Decimal.try_sub, U192.checked_sub_eq_none h]

/-- Witness for C3 at concrete inputs: 5 - 3 succeeds, 3 - 5 overflows. -/
theorem C3_witness :
    Decimal.try_sub ⟨5⟩ ⟨3⟩ = Except.ok ⟨2⟩ ∧
    Decimal.try_sub ⟨3⟩ ⟨5⟩ = Except.error DecimalError.MathOverflow :=
  ⟨(C3_try_sub_iff ⟨5⟩ ⟨3⟩).1 (by decide),
   (C3_try_sub_iff ⟨3⟩ ⟨5⟩).2 (by decide)⟩

/-- Claim C4: for decimals within the 192-bit width with `a ≥ b`,
`a.try_sub b` succeeds and adding `b` back with `try_add` returns the
original `a`. -/
theorem C4_sub_add_roundtrip (a b : Decimal) (ha : a.raw < U192.limit)
    (hba : b.raw ≤ a.raw) :
    ∃ c, a.try_sub b = Except.ok c ∧ c.try_add b = Except.ok a := by
  refine ⟨⟨a.raw - b.raw⟩, ?_, ?_⟩
  · simp [Decimal.try_sub, U192.checked_sub_eq_some hba]
  · have h2 : a.raw - b.raw + b.raw = a.raw := Nat.sub_add_cancel hba
    have h3 : U192.checked_add (a.raw - b.raw) b.raw = some a.raw := by
      rw [U192.checked_add_eq_some (by rw [h2]; exact ha), h2]
    simp [Decimal.try_add, h3]

/-- Witness for C4 at concrete inputs. -/
theorem C4_witness :
    ∃ c, Decimal.try_sub ⟨10⟩ ⟨4⟩ = Except.ok c ∧
      c.try_add ⟨4⟩ = Except.ok ⟨10⟩ :=
  C4_sub_add_roundtrip ⟨10⟩ ⟨4⟩ (by decide) (by decide)

/-- Claim C5: dividing any decimal by the zero decimal errors with
`MathOverflow` rather than panicking, and so does division by a zero
native integer divisor (both the `u64` and the `u128` impl). -/
theorem C5_div_by_zero_errors (a : Decimal) :
    a.try_div Decimal.zero = Except.error DecimalError.MathOverflow ∧
    a.try_div_u64 0 = Except.error DecimalError.MathOverflow ∧
    a.try_div_u128 0 = Except.error DecimalError.MathOverflow := by
  refine ⟨?_, ?_, ?_⟩
  · unfold Decimal.try_div
    cases hm : U192.checked_mul a.raw WAD with
    | none => rfl
    | some p => simp [Decimal.zero, U192.checked_div_zero]
  · simp [Decimal.try_div_u64, U192.checked_div_zero]
  · simp [Decimal.try_div_u128, U192.checked_div_zero]

/-- Claim C6: the decimal 1.5 (raw value `WAD + HALF_WAD`) rounds to 2,
ceils to 2 and floors to 1; in general round-to-nearest computes
`(HALF_WAD + raw) / WAD`, so ties round up (half-up). -/
theorem C6_rounding :
    Decimal.try_round_u64 ⟨WAD + HALF_WAD⟩ = Except.ok 2 ∧
    Decimal.try_ceil_u64 ⟨WAD + HALF_WAD⟩ = Except.ok 2 ∧
    Decimal.try_floor_u64 ⟨WAD + HALF_WAD⟩ = Except.ok 1 ∧
    ∀ d : Decimal, HALF_WAD + d.raw < U192.limit →
      (HALF_WAD + d.raw) / WAD < 2 ^ 64 →
      d.try_round_u64 = Except.ok ((HALF_WAD + d.raw) / WAD) := by
  refine ⟨rfl, rfl, rfl, ?_⟩
  intro d h1 h2
  simp only [Decimal.try_round_u64, U192.checked_add_eq_some h1,
    U192.checked_div_eq_some (show WAD ≠ 0 by decide), u64_try_from,
    if_pos h2]

/-- Witness for C6's general round formula: 2.5 rounds up to 3. -/
theorem C6_witness :
    Decimal.try_round_u64 ⟨2 * WAD + HALF_WAD⟩ = Except.ok 3 :=
  C6_rounding.2.2.2 ⟨2 * WAD + HALF_WAD⟩ (by decide) (by decide)

/-- Claim C7: percent construction and extraction round-trip exactly for
every percent in [0, 100]. -/
theorem C7_percent_roundtrip (p : Nat) (hp : p ≤ 100) :
    (Decimal.from_percent p).to_percent = Except.ok p := by
  have hps : (0:Nat) < PERCENT_SCALER := by decide
  have h1 : p * PERCENT_SCALER < 2 ^ 64 := by
    calc p * PERCENT_SCALER ≤ 100 * PERCENT_SCALER :=
          Nat.mul_le_mul_right _ hp
    _ < 2 ^ 64 := by decide
  simp only [Decimal.from_percent, Decimal.to_percent, u128_try_from,
    Nat.mod_eq_of_lt h1, Nat.mul_div_cancel _ hps,
    if_pos (lt_of_le_of_lt hp (show (100:Nat) < 2 ^ 128 by decide))]

/-- Witness for C7 at p = 100. -/
theorem C7_witness : (Decimal.from_percent 100).to_percent = Except.ok 100 :=
  C7_percent_roundtrip 100 (by decide)

/-- Claim C8: basis-point construction and extraction round-trip exactly
for every u16 value. -/
theorem C8_bps_roundtrip (b : Nat) (hb : b < 2 ^ 16) :
    (Decimal.from_bps b).to_bps = Except.ok b := by
  have hbs : (0:Nat) < BPS_SCALER := by decide
  have hb' : b ≤ 65535 := by omega
  have h1 : b * BPS_SCALER < 2 ^ 64 := by
    calc b * BPS_SCALER ≤ 65535 * BPS_SCALER := Nat.mul_le_mul_right _ hb'
    _ < 2 ^ 64 := by decide
  simp only [Decimal.from_bps, Decimal.to_bps, u128_try_from,
    Nat.mod_eq_of_lt h1, Nat.mul_div_cancel _ hbs,
    if_pos (lt_of_le_of_lt hb' (show (65535:Nat) < 2 ^ 128 by decide))]

/-- Witness for C8 at b = 65535. -/
theorem C8_witness : (Decimal.from_bps 65535).to_bps = Except.ok 65535 :=
  C8_bps_roundtrip 65535 (by decide)

/-- Claim C9: `to_percent` returns the quotient `raw / PERCENT_SCALER`
when it fits in 128 bits, and fails with `MathOverflow` exactly when it
does not. -/
theorem C9_to_percent_spec (d : Decimal) :
    (d.raw / PERCENT_SCALER < 2 ^ 128 →
      d.to_percent = Except.ok (d.raw / PERCENT_SCALER)) ∧
    (2 ^ 128 ≤ d.raw / PERCENT_SCALER →
      d.to_percent = Except.error DecimalError.MathOverflow) := by
  constructor
  · intro h
    simp only [Decimal.to_percent, u128_try_from, if_pos h]
  · intro h
    simp only [Decimal.to_percent, u128_try_from, if_neg (Nat.not_lt.mpr h)]

/-- Witness for C9: both the in-range and the out-of-range branch at
concrete raw values. -/
theorem C9_witness :
    Decimal.to_percent ⟨WAD⟩ = Except.ok 100 ∧
    Decimal.to_percent ⟨2 ^ 128 * PERCENT_SCALER⟩ =
      Except.error DecimalError.MathOverflow :=
  ⟨(C9_to_percent_spec ⟨WAD⟩).1 (by decide),
   (C9_to_percent_spec ⟨2 ^ 128 * PERCENT_SCALER⟩).2 (by decide)⟩

/-- Claim C10: the four unchecked constructor multiplications stay within
their widths for every in-range input, so the constructors are total and
exact: `From<u64>` and `From<u128>` never hit the `uint` overflow panic,
and `from_percent`/`from_bps` never wrap their `u64` product. -/
theorem C10_unchecked_constructors_safe :
    (∀ v : Nat, v < 2 ^ 64 → Decimal.fromU64 v = some ⟨WAD * v⟩) ∧
    (∀ v : Nat, v < 2 ^ 128 → Decimal.fromU128 v = some ⟨WAD * v⟩) ∧
    (∀ p : Nat, p < 2 ^ 8 → (Decimal.from_percent p).raw = p * PERCENT_SCALER) ∧
    (∀ b : Nat, b < 2 ^ 16 → (Decimal.from_bps b).raw = b * BPS_SCALER) := by
  have hwad : (0:Nat) < WAD := by decide
  refine ⟨?_, ?_, ?_, ?_⟩
  · intro v hv
    have h1 : WAD * v < WAD * 2 ^ 64 := mul_lt_mul_of_pos_left hv hwad
    exact if_pos (lt_of_lt_of_le h1 (by decide))
  · intro v hv
    have h1 : WAD * v < WAD * 2 ^ 128 := mul_lt_mul_of_pos_left hv hwad
    exact if_pos (lt_of_lt_of_le h1 (by decide))
  · intro p hp
    have h1 : p * PERCENT_SCALER < 2 ^ 8 * PERCENT_SCALER :=
      mul_lt_mul_of_pos_right hp (by decide)
    exact Nat.mod_eq_of_lt (lt_of_lt_of_le h1 (by decide))
  · intro b hb
    have h1 : b * BPS_SCALER < 2 ^ 16 * BPS_SCALER :=
      mul_lt_mul_of_pos_right hb (by decide)
    exact Nat.mod_eq_of_lt (lt_of_lt_of_le h1 (by decide))

/-- Witness for C10 at the largest in-range inputs of each constructor. -/
theorem C10_witness :
    Decimal.fromU64 (2 ^ 64 - 1) = some ⟨WAD * (2 ^ 64 - 1)⟩ ∧
    Decimal.fromU128 (2 ^ 128 - 1) = some ⟨WAD * (2 ^ 128 - 1)⟩ ∧
    (Decimal.from_percent 255).raw = 255 * PERCENT_SCALER ∧
    (Decimal.from_bps 65535).raw = 65535 * BPS_SCALER :=
  ⟨C10_unchecked_constructors_safe.1 (2 ^ 64 - 1) (by decide),
   C10_unchecked_constructors_safe.2.1 (2 ^ 128 - 1) (by decide),
   C10_unchecked_constructors_safe.2.2.1 255 (by decide),
   C10_unchecked_constructors_safe.2.2.2 65535 (by decide)⟩

/-- Claim C1 counterexample: multiplying the maximum representable decimal
(raw value `2 ^ 192 - 1`) by one via `try_mul` does not return the
original value: the 192-bit intermediate product `(2 ^ 192 - 1) * WAD`
overflows, so the result is `MathOverflow`, refuting the claimed
multiplicative identity at this input. -/
theorem C1_max_times_one_overflows :
    Decimal.try_mul ⟨U192.limit - 1⟩ Decimal.one ≠
      Except.ok ⟨U192.limit - 1⟩ ∧
    Decimal.try_mul ⟨U192.limit - 1⟩ Decimal.one =
      Except.error DecimalError.MathOverflow := by
  have h : Decimal.try_mul ⟨U192.limit - 1⟩ Decimal.one =
      Except.error DecimalError.MathOverflow := rfl
  exact ⟨by rw [h]; exact fun hc => Except.noConfusion hc, h⟩

/-- Claim C1 (amended): multiplication by one is the identity exactly for
the decimals whose raw value times `WAD` fits in 192 bits: it returns the
value unchanged when the product fits, and fails with `MathOverflow` for
every decimal whose product does not fit — in particular for the maximum
representable decimal; and multiplying any decimal by zero returns zero. -/
theorem C1_mul_identity_and_zero :
    (∀ a : Decimal, a.raw * WAD < U192.limit →
      a.try_mul Decimal.one = Except.ok a) ∧
    (∀ a : Decimal, U192.limit ≤ a.raw * WAD →
      a.try_mul Decimal.one = Except.error DecimalError.MathOverflow) ∧
    Decimal.try_mul ⟨U192.limit - 1⟩ Decimal.one =
      Except.error DecimalError.MathOverflow ∧
    (∀ a : Decimal, a.try_mul Decimal.zero = Except.ok Decimal.zero) := by
  refine ⟨?_, ?_, rfl, ?_⟩
  · intro a ha
    have hwad : (0:Nat) < WAD := by decide
    simp only [Decimal.try_mul, Decimal.one, U192.checked_mul_eq_some ha,
      U192.checked_div_eq_some (Nat.pos_iff_ne_zero.mp hwad),
      Nat.mul_div_cancel _ hwad]
  · intro a ha
    simp only [Decimal.try_mul, Decimal.one, U192.checked_mul_eq_none ha]
  · intro a
    have h0 : U192.checked_mul a.raw 0 = some 0 := by
      simp [U192.checked_mul, U192.limit]
    simp only [Decimal.try_mul, Decimal.zero, h0,
      U192.checked_div_eq_some (show WAD ≠ 0 by decide), Nat.zero_div]

/-- Witness for C1 (amended), both directions at concrete inputs:
3 * 1 = 3 at raw value 3 * WAD, and the identity fails with overflow at
the maximum raw value. -/
theorem C1_witness :
    Decimal.try_mul ⟨3 * WAD⟩ Decimal.one = Except.ok ⟨3 * WAD⟩ ∧
    Decimal.try_mul ⟨U192.limit - 1⟩ Decimal.one =
      Except.error DecimalError.MathOverflow :=
  ⟨C1_mul_identity_and_zero.1 ⟨3 * WAD⟩ (by decide),
   C1_mul_identity_and_zero.2.1 ⟨U192.limit - 1⟩ (by decide)⟩

/-- Claim C2 (code bug): `from_percent_u64` multiplies `percent *
PERCENT_SCALER` as an unchecked `u64` product; at percent = 10000 the
true product `10 ^ 20` exceeds `u64::MAX` and wraps (panics in debug
builds), so the stored raw value is wrong and `to_percent` reports 776
instead of 10000 — contradicting the no-panic/no-wrap contract. -/
theorem C2_from_percent_u64_wraps :
    (Decimal.from_percent_u64 10000).raw = 10000 * PERCENT_SCALER % 2 ^ 64 ∧
    (Decimal.from_percent_u64 10000).raw ≠ 10000 * PERCENT_SCALER ∧
    (Decimal.from_percent_u64 10000).to_percent = Except.ok 776 :=
  ⟨rfl, by decide, rfl⟩
